import Mathlib

/-!
Shallow embedding of the wavescapes repository: an `AudioWorkletProcessor`
noise source (two variants: `worklet.js` and the unnamed variant `part_000`)
together with the page-side control script (`part_001`).

The external wasm module (`NoiseCore` in the specification) is not part of
the repository sources; it is abstracted as a structure of functions
(`Wasm`) over which all theorems quantify.  Everything written in JS in
`src/` is translated here definition by definition.
-/

/-- A JS typed array (`Float32Array`): the identity of its backing
`ArrayBuffer` (as a number) together with its contents. -/
structure JsArray (S : Type) where
  id : Nat
  data : List S
deriving DecidableEq, Repr

/-- `dst.set src` (TypedArray.prototype.set with offset 0): overwrite the
first `src.length` entries of `dst` with `src`, keeping the identity. -/
def JsArray.set {S : Type} (dst : JsArray S) (src : List S) : JsArray S :=
  { dst with data := src ++ dst.data.drop src.length }

/-- The `{left, right}` pair of sample buffers exchanged over the port. -/
structure BufferPair (S : Type) where
  left : JsArray S
  right : JsArray S
deriving DecidableEq, Repr

/-- A message sent over the `MessagePort`.  JS messages are free-form
objects; the fields read anywhere in the sources are `wasm` (bootstrap
payload), `buffer` (field name used by `worklet.js` and `part_001`) and
`buffers` (field name used by `part_000`).  `extra` stands for any further
fields a message might carry; a field that is absent/undefined is `none`. -/
structure Message (P S E : Type) where
  wasm : Option P := none
  buffer : Option (BufferPair S) := none
  buffers : Option (BufferPair S) := none
  extra : Option E := none
deriving DecidableEq, Repr

/-- One `postMessage` call: the message data plus the transfer list (the
ids of the `ArrayBuffer`s whose ownership is moved to the receiver; an
empty list means everything is copied by structured clone). -/
structure Post (P S E : Type) where
  data : Message P S E
  transferList : List Nat := []
deriving DecidableEq, Repr

/-- The external wasm module interface, as used by the sources:
`new_handle` (accessed as `State.new_handle` in `worklet.js` and as
`Instance.new_handle` in `part_000`), `get_sample` and `process`.  The JS
functions mutate the two sample arrays and the generator state behind the
handle; here they return the new left contents, new right contents and the
advanced generator state. -/
structure Wasm (S G : Type) where
  new_handle : Nat → G
  get_sample : List S → List S → G → List S × List S × G
  process : List S → List S → G → List S × List S × G

/-- The mutable fields of a `RandomNoiseProcessor` instance:
`this.processFn` (tracked as a flag, since the only value ever stored is
`wasm.process`), `this.handle`, and the wasm module instance installed by
`initSync` (tracked as the payload it was built from).  `handle = none` is
the Uninit state; `handle = some _` is Ready. -/
structure RenderState (P G : Type) where
  module : Option P := none
  processFnSet : Bool := false
  handle : Option G := none
deriving DecidableEq, Repr

/-- `worklet.js`, `this.port.onmessage`: on a truthy `ev.data.wasm` field,
initialize the wasm module, store `wasm.process` and a fresh handle; else,
if a handle exists and `ev.data.buffer` is truthy, fill the two buffers via
`wasm.get_sample` and post `ev.data` itself back (no transfer list).
Returns the new instance state and the list of `postMessage` calls made. -/
def WorkletJs.onmessage {P S G E : Type} (w : Wasm S G) (sampleRate : Nat)
    (st : RenderState P G) (msg : Message P S E) :
    RenderState P G × List (Post P S E) :=
  match msg.wasm with
  | some p =>
      ({ module := some p, processFnSet := true,
         handle := some (w.new_handle sampleRate) }, [])
  | none =>
      match st.handle, msg.buffer with
      | some h, some b =>
          let r := w.get_sample b.left.data b.right.data h
          let filled : BufferPair S :=
            { left := { b.left with data := r.1 },
              right := { b.right with data := r.2.1 } }
          ({ st with handle := some r.2.2 },
           [{ data := { msg with buffer := some filled }, transferList := [] }])
      | _, _ => (st, [])

/-- `part_000`, `this.port.onmessage`: same bootstrap branch; the mirror
branch reads `ev.data.buffers`, fills via `wasm.get_sample`, and posts a
fresh `{buffers}` object with the two backing `ArrayBuffer`s in the
transfer list. -/
def Part000.onmessage {P S G E : Type} (w : Wasm S G) (sampleRate : Nat)
    (st : RenderState P G) (msg : Message P S E) :
    RenderState P G × List (Post P S E) :=
  match msg.wasm with
  | some p =>
      ({ module := some p, processFnSet := true,
         handle := some (w.new_handle sampleRate) }, [])
  | none =>
      match st.handle, msg.buffers with
      | some h, some b =>
          let r := w.get_sample b.left.data b.right.data h
          let filled : BufferPair S :=
            { left := { b.left with data := r.1 },
              right := { b.right with data := r.2.1 } }
          ({ st with handle := some r.2.2 },
           [{ data := { buffers := some filled },
              transferList := [filled.left.id, filled.right.id] }])
      | _, _ => (st, [])

/-- `process(inputs, outputs, parameters)`, identical in `worklet.js` and
`part_000`: if a handle exists, fill `output[0]` and `output[1]` through
the stored `processFn` (which is always `wasm.process`); always return
`true`.  Result: the two output channels as left by the callback, the new
instance state, and the returned boolean. -/
def RandomNoiseProcessor.process {P S G : Type} (w : Wasm S G)
    (st : RenderState P G) (outL outR : List S) :
    (List S × List S) × RenderState P G × Bool :=
  match st.handle with
  | some h =>
      let r := w.process outL outR h
      ((r.1, r.2.1), { st with handle := some r.2.2 }, true)
  | none => ((outL, outR), st, true)

/-- One external stimulus to the render endpoint: a port message or an
audio callback (with the output block the host hands in). -/
inductive RenderEvent (P S E : Type) where
  | msg (m : Message P S E)
  | audio (outL outR : List S)

/-- Run the `worklet.js` render endpoint over a sequence of stimuli,
keeping only the evolving instance state. -/
def runRender {P S G E : Type} (w : Wasm S G) (sampleRate : Nat)
    (st : RenderState P G) : List (RenderEvent P S E) → RenderState P G
  | [] => st
  | RenderEvent.msg m :: evs =>
      runRender w sampleRate (WorkletJs.onmessage w sampleRate st m).1 evs
  | RenderEvent.audio l r :: evs =>
      runRender w sampleRate ((RandomNoiseProcessor.process w st l r).2.1) evs

/-- The page script's (`part_001`) mutable state: the two fixed
`Float32Array(size)` buffers `bufLeft`, `bufRight` (`size = 256`). -/
structure CtrlState (S : Type) where
  bufLeft : JsArray S
  bufRight : JsArray S
deriving DecidableEq, Repr

/-- The mirror request `part_001` posts, at startup and from `drawFrame`:
`{buffer: {left: bufLeft, right: bufRight}}`. -/
def Main.mirrorMsg {P S E : Type} (st : CtrlState S) : Message P S E :=
  { buffer := some { left := st.bufLeft, right := st.bufRight } }

/-- The corresponding `postMessage` call: `part_001` passes no transfer
list, so the buffers are copied by structured clone. -/
def Main.mirrorPost {P S E : Type} (st : CtrlState S) : Post P S E :=
  { data := Main.mirrorMsg st }

/-- `part_001`, `node.port.onmessage`: copy `ev.data.buffer.left` and
`ev.data.buffer.right` into the stable arrays via `TypedArray.set`; no
message is posted here.  If the message has no `buffer` field the access
`ev.data.buffer.left` throws, modelled as `none`. -/
def Main.onmessage {P S E : Type} (st : CtrlState S) (msg : Message P S E) :
    Option (CtrlState S × List (Post P S E)) :=
  match msg.buffer with
  | some b =>
      some ({ bufLeft := st.bufLeft.set b.left.data,
              bufRight := st.bufRight.set b.right.data }, [])
  | none => none

/-- `part_001`, `drawFrame`: rebuild the two SVG path strings from
`bufLeft`/`bufRight` (pure DOM output, not modelled), reschedule itself
via `requestAnimationFrame`, and post the next mirror request.  The state
is unchanged; the messaging effect is the single request post. -/
def Main.drawFrame {P S E : Type} (st : CtrlState S) :
    CtrlState S × List (Post P S E) :=
  (st, [Main.mirrorPost st])

/-- The two endpoints plus the two in-flight FIFO message queues of the
`MessagePort` pair (`toRender`: control to worklet, `toCtrl`: worklet to
control). -/
structure Sys (P S G E : Type) where
  ctrl : CtrlState S
  rend : RenderState P G
  toRender : List (Message P S E)
  toCtrl : List (Message P S E)
deriving DecidableEq, Repr

/-- Asynchronous interleaving of the two endpoints (with the `worklet.js`
variant on the render side): an animation frame fires `drawFrame`; a
queued message is delivered to one endpoint, whose posts are enqueued in
the opposite direction; or the host invokes the audio callback. -/
inductive Step {P S G E : Type} (w : Wasm S G) (sampleRate : Nat) :
    Sys P S G E → Sys P S G E → Prop where
  | animFrame (s : Sys P S G E) :
      Step w sampleRate s
        { s with toRender :=
            s.toRender ++ ((Main.drawFrame s.ctrl).2.map Post.data) }
  | deliverRender (s : Sys P S G E) (m : Message P S E)
      (rest : List (Message P S E)) (hq : s.toRender = m :: rest) :
      Step w sampleRate s
        { s with rend := (WorkletJs.onmessage w sampleRate s.rend m).1,
                 toRender := rest,
                 toCtrl := s.toCtrl ++
                   ((WorkletJs.onmessage w sampleRate s.rend m).2.map Post.data) }
  | deliverCtrl (s : Sys P S G E) (m : Message P S E)
      (rest : List (Message P S E)) (c : CtrlState S)
      (ps : List (Post P S E)) (hq : s.toCtrl = m :: rest)
      (hm : Main.onmessage s.ctrl m = some (c, ps)) :
      Step w sampleRate s
        { s with ctrl := c, toCtrl := rest,
                 toRender := s.toRender ++ (ps.map Post.data) }
  | audio (s : Sys P S G E) (outL outR : List S) :
      Step w sampleRate s
        { s with rend := (RandomNoiseProcessor.process w s.rend outL outR).2.1 }

/-- A mirror-protocol message: no `wasm` field, a `buffer` field present
(this matches both the requests `part_001` sends and the replies
`worklet.js` returns). -/
def Message.isMirror {P S E : Type} (m : Message P S E) : Bool :=
  m.wasm.isNone && m.buffer.isSome

/-- Number of mirror requests in flight: requests posted whose reply has
not yet been received, i.e. pending requests on the way to the worklet
plus pending replies on the way back. -/
def mirrorInFlight {P S G E : Type} (s : Sys P S G E) : Nat :=
  (s.toRender.filter Message.isMirror).length +
    (s.toCtrl.filter Message.isMirror).length

/-- The system state right after `part_001`'s top level has run: buffers
allocated and zeroed (`size = 256`), the bootstrap message and the first
mirror request already posted (in this order), the worklet not yet having
processed anything. -/
def sysInit {P S G E : Type} (payload : P) (z : S) : Sys P S G E :=
  let c : CtrlState S :=
    { bufLeft := { id := 0, data := List.replicate 256 z },
      bufRight := { id := 1, data := List.replicate 256 z } }
  { ctrl := c, rend := {},
    toRender := [{ wasm := some payload }, Main.mirrorMsg c], toCtrl := [] }

/-! ### Helper lemmas on the render endpoint -/

/-- A message whose `wasm` field is truthy takes the bootstrap branch of
`worklet.js`: fresh module, `processFn`, fresh handle, nothing posted. -/
theorem WorkletJs.onmessage_bootstrap {P S G E : Type} (w : Wasm S G)
    (sampleRate : Nat) (st : RenderState P G) (msg : Message P S E) (p : P)
    (hw : msg.wasm = some p) :
    WorkletJs.onmessage w sampleRate st msg =
      ({ module := some p, processFnSet := true,
         handle := some (w.new_handle sampleRate) }, []) := by
  unfold WorkletJs.onmessage
  rw [hw]

/-- A non-bootstrap message arriving while `this.handle` is unset falls
through both guards of `worklet.js`: state untouched, nothing posted. -/
theorem WorkletJs.onmessage_uninit {P S G E : Type} (w : Wasm S G)
    (sampleRate : Nat) (st : RenderState P G) (msg : Message P S E)
    (hw : msg.wasm = none) (hh : st.handle = none) :
    WorkletJs.onmessage w sampleRate st msg = (st, []) := by
  unfold WorkletJs.onmessage
  rw [hw, hh]

/-- A mirror request arriving while Ready takes the fill-and-reply branch
of `worklet.js`. -/
theorem WorkletJs.onmessage_mirror {P S G E : Type} (w : Wasm S G)
    (sampleRate : Nat) (st : RenderState P G) (msg : Message P S E) (g : G)
    (b : BufferPair S) (hh : st.handle = some g) (hw : msg.wasm = none)
    (hb : msg.buffer = some b) :
    WorkletJs.onmessage w sampleRate st msg =
      ({ st with handle := some (w.get_sample b.left.data b.right.data g).2.2 },
       [{ data := { msg with buffer := some (
            { left := { b.left with
                data := (w.get_sample b.left.data b.right.data g).1 },
              right := { b.right with
                data := (w.get_sample b.left.data b.right.data g).2.1 } }) },
          transferList := [] }]) := by
  unfold WorkletJs.onmessage
  rw [hw, hh, hb]

/-- A mirror request arriving while Ready takes the fill-and-reply branch
of `part_000`: the reply is a fresh `{buffers}` message with both backing
stores in the transfer list. -/
theorem Part000.onmessage_mirror_transfer {P S G E : Type} (w : Wasm S G)
    (sampleRate : Nat) (st : RenderState P G) (msg : Message P S E) (g : G)
    (b : BufferPair S) (hh : st.handle = some g) (hw : msg.wasm = none)
    (hb : msg.buffers = some b) :
    Part000.onmessage w sampleRate st msg =
      ({ st with handle := some (w.get_sample b.left.data b.right.data g).2.2 },
       [{ data := { buffers := some (
            { left := { b.left with
                data := (w.get_sample b.left.data b.right.data g).1 },
              right := { b.right with
                data := (w.get_sample b.left.data b.right.data g).2.1 } }) },
          transferList := [b.left.id, b.right.id] }]) := by
  unfold Part000.onmessage
  rw [hw, hh, hb]

/-- `worklet.js` never unsets `this.handle`: every message handler branch
leaves it `some`. -/
theorem WorkletJs.onmessage_keeps_handle {P S G E : Type} (w : Wasm S G)
    (sampleRate : Nat) (st : RenderState P G) (msg : Message P S E)
    (hh : st.handle.isSome = true) :
    (WorkletJs.onmessage w sampleRate st msg).1.handle.isSome = true := by
  unfold WorkletJs.onmessage
  cases hw : msg.wasm with
  | some p => simp
  | none =>
    cases hs : st.handle with
    | none => rw [hs] at hh; cases hh
    | some g =>
      cases hb : msg.buffer with
      | some b => simp
      | none => simp [hs, hh]

/-- The audio callback never unsets `this.handle`. -/
theorem RandomNoiseProcessor.process_keeps_handle {P S G : Type}
    (w : Wasm S G) (st : RenderState P G) (outL outR : List S)
    (hh : st.handle.isSome = true) :
    (RandomNoiseProcessor.process w st outL outR).2.1.handle.isSome = true := by
  unfold RandomNoiseProcessor.process
  cases hs : st.handle with
  | none => rw [hs] at hh; cases hh
  | some g => simp

/-! ### Concrete instances used by witnesses and counterexamples -/

/-- A concrete wasm module for evaluating the model: integer samples, the
handle a counter advanced on every fill. -/
def demoWasm : Wasm Int Nat :=
  { new_handle := fun sr => sr,
    get_sample := fun l r g => (l.map (· + 1), r.map (· + 2), g + 1),
    process := fun l r g => (l.map (· + 3), r.map (· + 4), g + 1) }

/-- A Ready render endpoint (module 7 installed, handle 5). -/
def demoReady : RenderState Nat Nat :=
  { module := some 7, processFnSet := true, handle := some 5 }

/-- A concrete buffer pair. -/
def demoBuf : BufferPair Int :=
  { left := { id := 0, data := [1, 2] }, right := { id := 1, data := [3, 4] } }

/-- A concrete mirror request in the `worklet.js` field convention. -/
def demoReq : Message Nat Int Unit := { buffer := some demoBuf }

/-- A concrete control endpoint with zeroed two-sample buffers. -/
def demoCtrl : CtrlState Int :=
  { bufLeft := { id := 0, data := [0, 0] },
    bufRight := { id := 1, data := [0, 0] } }

/-! ### Claim theorems -/

/-- C3: a mirror (non-bootstrap) message received while the render
endpoint has no handle is ignored: the instance state is returned exactly
as it was (no generator created or mutated, no buffer filled) and no
message is posted; the handler is total, so nothing is thrown. -/
theorem c3_uninit_mirror_ignored {P S G E : Type} (w : Wasm S G)
    (sampleRate : Nat) (st : RenderState P G) (msg : Message P S E)
    (hw : msg.wasm = none) (hh : st.handle = none) :
    WorkletJs.onmessage w sampleRate st msg = (st, []) :=
  WorkletJs.onmessage_uninit w sampleRate st msg hw hh

/-- C3 witness: a concrete mirror request delivered to a fresh endpoint. -/
theorem c3_witness :
    WorkletJs.onmessage demoWasm 48000 ({} : RenderState Nat Nat) demoReq =
      ({}, []) :=
  c3_uninit_mirror_ignored demoWasm 48000 {} demoReq rfl rfl

/-- C4: the audio callback returns `true` in every state, and while no
handle exists it leaves the output block and the instance state
untouched. -/
theorem c4_audio_callback {P S G : Type} (w : Wasm S G)
    (st : RenderState P G) (outL outR : List S) :
    (RandomNoiseProcessor.process w st outL outR).2.2 = true ∧
    (st.handle = none →
      RandomNoiseProcessor.process w st outL outR = ((outL, outR), st, true)) := by
  unfold RandomNoiseProcessor.process
  cases hs : st.handle with
  | none => exact ⟨rfl, fun _ => rfl⟩
  | some g => exact ⟨rfl, fun hc => Option.noConfusion hc⟩

/-- C4 witness: a concrete audio callback on a fresh endpoint. -/
theorem c4_witness :
    RandomNoiseProcessor.process demoWasm ({} : RenderState Nat Nat)
        [1, 2] [3, 4] = (([1, 2], [3, 4]), {}, true) :=
  (c4_audio_callback demoWasm {} [1, 2] [3, 4]).2 rfl

/-- C5: a message with a truthy `wasm` payload installs the module built
from that payload, stores `wasm.process`, stores
`new_handle(sampleRate)`, reaching the Ready state; afterwards every
audio callback fills both output channels through the stored handle. -/
theorem c5_bootstrap_ready {P S G E : Type} (w : Wasm S G)
    (sampleRate : Nat) (st : RenderState P G) (msg : Message P S E) (p : P)
    (hw : msg.wasm = some p) :
    WorkletJs.onmessage w sampleRate st msg =
      ({ module := some p, processFnSet := true,
         handle := some (w.new_handle sampleRate) }, []) ∧
    ∀ outL outR : List S,
      RandomNoiseProcessor.process w
          (WorkletJs.onmessage w sampleRate st msg).1 outL outR =
        (((w.process outL outR (w.new_handle sampleRate)).1,
          (w.process outL outR (w.new_handle sampleRate)).2.1),
         { module := some p, processFnSet := true,
           handle := some (w.process outL outR (w.new_handle sampleRate)).2.2 },
         true) := by
  have hmsg := WorkletJs.onmessage_bootstrap w sampleRate st msg p hw
  refine ⟨hmsg, fun outL outR => ?_⟩
  rw [hmsg]
  rfl

/-- C5 witness: bootstrapping a fresh endpoint with payload 7 at rate
48000, then one audio callback. -/
theorem c5_witness :
    WorkletJs.onmessage demoWasm 48000 ({} : RenderState Nat Nat)
        ({ wasm := some 7 } : Message Nat Int Unit) =
      ({ module := some 7, processFnSet := true, handle := some 48000 }, []) ∧
    ∀ outL outR : List Int,
      RandomNoiseProcessor.process demoWasm
          (WorkletJs.onmessage demoWasm 48000 ({} : RenderState Nat Nat)
            ({ wasm := some 7 } : Message Nat Int Unit)).1 outL outR =
        (((demoWasm.process outL outR 48000).1,
          (demoWasm.process outL outR 48000).2.1),
         { module := some 7, processFnSet := true,
           handle := some (demoWasm.process outL outR 48000).2.2 },
         true) :=
  c5_bootstrap_ready demoWasm 48000 {} { wasm := some 7 } 7 rfl

/-- C8: once a handle exists, no sequence of further messages and audio
callbacks ever unsets it: the render endpoint never leaves the Ready
state. -/
theorem c8_ready_is_permanent {P S G E : Type} (w : Wasm S G)
    (sampleRate : Nat) (st : RenderState P G)
    (evs : List (RenderEvent P S E)) (hh : st.handle.isSome = true) :
    (runRender w sampleRate st evs).handle.isSome = true := by
  induction evs generalizing st with
  | nil => exact hh
  | cons e evs ih =>
    cases e with
    | msg m =>
      exact ih _ (WorkletJs.onmessage_keeps_handle w sampleRate st m hh)
    | audio l r =>
      exact ih _ (RandomNoiseProcessor.process_keeps_handle w st l r hh)

/-- C8 witness: a Ready endpoint stays Ready across a mirror request, an
audio callback and a re-bootstrap. -/
theorem c8_witness :
    (runRender demoWasm 48000 demoReady
        [RenderEvent.msg demoReq, RenderEvent.audio [1] [2],
         RenderEvent.msg { wasm := some 9 }]).handle.isSome = true :=
  c8_ready_is_permanent demoWasm 48000 demoReady _ rfl

/-- C9: a message whose `wasm` field is truthy is handled exclusively as
a bootstrap in both worklet variants, even when it also carries mirror
buffers: the resulting state is exactly the bootstrap state (no fill
happened) and no reply is posted. -/
theorem c9_bootstrap_precedence {P S G E : Type} (w : Wasm S G)
    (sampleRate : Nat) (st : RenderState P G) (msg : Message P S E) (p : P)
    (b b2 : BufferPair S) (hw : msg.wasm = some p)
    (hb : msg.buffer = some b) (hb2 : msg.buffers = some b2) :
    WorkletJs.onmessage w sampleRate st msg =
      ({ module := some p, processFnSet := true,
         handle := some (w.new_handle sampleRate) }, []) ∧
    Part000.onmessage w sampleRate st msg =
      ({ module := some p, processFnSet := true,
         handle := some (w.new_handle sampleRate) }, []) := by
  refine ⟨WorkletJs.onmessage_bootstrap w sampleRate st msg p hw, ?_⟩
  unfold Part000.onmessage
  rw [hw]

/-- C9 witness: a Ready endpoint receiving a message that carries both a
payload and mirror buffers. -/
theorem c9_witness :
    WorkletJs.onmessage demoWasm 48000 demoReady
        ({ wasm := some 9, buffer := some demoBuf, buffers := some demoBuf } :
          Message Nat Int Unit) =
      ({ module := some 9, processFnSet := true, handle := some 48000 }, []) ∧
    Part000.onmessage demoWasm 48000 demoReady
        ({ wasm := some 9, buffer := some demoBuf, buffers := some demoBuf } :
          Message Nat Int Unit) =
      ({ module := some 9, processFnSet := true, handle := some 48000 }, []) :=
  c9_bootstrap_precedence demoWasm 48000 demoReady _ 9 demoBuf demoBuf rfl rfl rfl

/-- C10: a mirror request serviced while Ready produces exactly one
reply, and that reply is the request message itself with only the two
buffer contents replaced by `get_sample` output (the record update keeps
every other field — `wasm`, `buffers`, `extra` — and both buffer
identities unchanged). -/
theorem c10_reply_is_request_data {P S G E : Type} (w : Wasm S G)
    (sampleRate : Nat) (st : RenderState P G) (msg : Message P S E)
    (g : G) (b : BufferPair S) (hh : st.handle = some g)
    (hw : msg.wasm = none) (hb : msg.buffer = some b) :
    (WorkletJs.onmessage w sampleRate st msg).2 =
      [{ data := { msg with buffer := some (
           { left := { b.left with
               data := (w.get_sample b.left.data b.right.data g).1 },
             right := { b.right with
               data := (w.get_sample b.left.data b.right.data g).2.1 } }) },
         transferList := [] }] := by
  rw [WorkletJs.onmessage_mirror w sampleRate st msg g b hh hw hb]

/-- C10 witness: a Ready endpoint (handle 5) servicing a concrete mirror
request; the reply keeps ids 0 and 1 and swaps in the filled samples. -/
theorem c10_witness :
    (WorkletJs.onmessage demoWasm 48000 demoReady demoReq).2 =
      [{ data := { buffer := some (
           { left := { id := 0, data := [2, 3] },
             right := { id := 1, data := [5, 6] } } : BufferPair Int) },
         transferList := [] }] :=
  c10_reply_is_request_data demoWasm 48000 demoReady demoReq 5 demoBuf rfl rfl rfl

/-! ### C2: a mirror request before bootstrap gets no reply -/

/-- A concrete system in which the render endpoint has not been
bootstrapped and one mirror request is queued towards it. -/
def c2Sys : Sys Nat Int Nat Unit :=
  { ctrl := demoCtrl, rend := {}, toRender := [demoReq], toCtrl := [] }

/-- C2 counterexample: a concrete mirror request delivered to the render
endpoint before bootstrap produces no `postMessage` call at all, so the
requester receives no reply (the claim expects a reply with unchanged
buffers). -/
theorem c2_no_reply_before_bootstrap :
    (WorkletJs.onmessage demoWasm 48000 ({} : RenderState Nat Nat) demoReq).2
      = [] ∧
    ¬ ∃ post, post ∈
      (WorkletJs.onmessage demoWasm 48000 ({} : RenderState Nat Nat) demoReq).2 := by
  refine ⟨rfl, ?_⟩
  rintro ⟨post, hp⟩
  exact List.not_mem_nil post hp

/-- C2 amended: a mirror request delivered while the render endpoint has
no handle is dropped: the step consumes the request, sends nothing back,
and leaves both endpoints (in particular the requester's stable buffers)
unchanged. -/
theorem c2_amended_request_dropped {P S G E : Type} (w : Wasm S G)
    (sampleRate : Nat) (s : Sys P S G E) (m : Message P S E)
    (rest : List (Message P S E)) (hq : s.toRender = m :: rest)
    (hw : m.wasm = none) (hh : s.rend.handle = none) :
    ∃ t, Step w sampleRate s t ∧ t.ctrl = s.ctrl ∧ t.rend = s.rend ∧
      t.toCtrl = s.toCtrl ∧ t.toRender = rest := by
  have hm : WorkletJs.onmessage (E := E) w sampleRate s.rend m = (s.rend, []) :=
    WorkletJs.onmessage_uninit w sampleRate s.rend m hw hh
  refine ⟨_, Step.deliverRender s m rest hq, rfl, ?_, ?_, rfl⟩
  · show (WorkletJs.onmessage w sampleRate s.rend m).1 = s.rend
    rw [hm]
  · show s.toCtrl ++ (WorkletJs.onmessage w sampleRate s.rend m).2.map Post.data
        = s.toCtrl
    rw [hm]
    simp

/-- C2 amended witness: the concrete pre-bootstrap system takes the
delivery step, drops the request and replies with nothing. -/
theorem c2_amended_witness :
    ∃ t, Step demoWasm 48000 c2Sys t ∧ t.ctrl = c2Sys.ctrl ∧
      t.rend = c2Sys.rend ∧ t.toCtrl = c2Sys.toCtrl ∧ t.toRender = [] :=
  c2_amended_request_dropped demoWasm 48000 c2Sys demoReq [] rfl rfl rfl

/-! ### C6: the reply handler copies but does not re-issue -/

/-- A concrete mirror reply as it comes back from the worklet. -/
def demoReplyBuf : BufferPair Int :=
  { left := { id := 2, data := [8, 9] }, right := { id := 3, data := [6, 7] } }

/-- The concrete reply message carrying `demoReplyBuf`. -/
def demoReply : Message Nat Int Unit := { buffer := some demoReplyBuf }

/-- C6 counterexample: on a concrete reply, the control endpoint's
message handler copies the samples into the stable arrays but performs no
`postMessage` call whatsoever — in particular it does not issue the next
mirror request, contrary to the claim. -/
theorem c6_reply_handler_posts_nothing :
    Main.onmessage demoCtrl demoReply =
      some ({ bufLeft := { id := 0, data := [8, 9] },
              bufRight := { id := 1, data := [6, 7] } },
            ([] : List (Post Nat Int Unit))) ∧
    ¬ ∃ post c ps, Main.onmessage demoCtrl demoReply = some (c, ps) ∧
        post ∈ ps := by
  refine ⟨rfl, ?_⟩
  rintro ⟨post, c, ps, h1, h2⟩
  have h0 : Main.onmessage demoCtrl demoReply =
      some ({ bufLeft := { id := 0, data := [8, 9] },
              bufRight := { id := 1, data := [6, 7] } },
            ([] : List (Post Nat Int Unit))) := rfl
  rw [h0] at h1
  obtain ⟨-, hps⟩ := Prod.mk.injEq .. ▸ Option.some.inj h1
  rw [← hps] at h2
  exact List.not_mem_nil post h2

/-- C6 amended: on a reply the handler copies the returned samples into
the stable display storage (same backing arrays, ids unchanged) and posts
nothing; the next mirror request reusing that same storage is issued
separately, by the animation-frame callback `drawFrame`. -/
theorem c6_amended_copy_only {P S E : Type} (st : CtrlState S)
    (msg : Message P S E) (b : BufferPair S) (hb : msg.buffer = some b) :
    ∃ st2 : CtrlState S,
      Main.onmessage st msg = some (st2, ([] : List (Post P S E))) ∧
      st2.bufLeft = st.bufLeft.set b.left.data ∧
      st2.bufRight = st.bufRight.set b.right.data ∧
      st2.bufLeft.id = st.bufLeft.id ∧ st2.bufRight.id = st.bufRight.id ∧
      (Main.drawFrame st2).2 =
        [({ data := { buffer := some (
              { left := st2.bufLeft, right := st2.bufRight }) },
            transferList := [] } : Post P S E)] := by
  refine ⟨{ bufLeft := st.bufLeft.set b.left.data,
            bufRight := st.bufRight.set b.right.data },
          ?_, rfl, rfl, rfl, rfl, rfl⟩
  unfold Main.onmessage
  rw [hb]

/-- C6 amended witness: the concrete reply is copied into the stable
arrays (ids 0 and 1 kept), nothing is posted, and `drawFrame` then posts
the request with those same arrays. -/
theorem c6_witness :
    ∃ st2 : CtrlState Int,
      Main.onmessage demoCtrl demoReply =
        some (st2, ([] : List (Post Nat Int Unit))) ∧
      st2.bufLeft = demoCtrl.bufLeft.set demoReplyBuf.left.data ∧
      st2.bufRight = demoCtrl.bufRight.set demoReplyBuf.right.data ∧
      st2.bufLeft.id = demoCtrl.bufLeft.id ∧
      st2.bufRight.id = demoCtrl.bufRight.id ∧
      (Main.drawFrame st2).2 =
        [({ data := { buffer := some (
              { left := st2.bufLeft, right := st2.bufRight }) },
            transferList := [] } : Post Nat Int Unit)] :=
  c6_amended_copy_only demoCtrl demoReply demoReplyBuf rfl

/-! ### C7: transfer vs. copy of the sample buffers -/

/-- C7 counterexample: a concrete mirror exchange through `part_001` and
`worklet.js` moves no ownership in either direction — the request post
and the (single) reply post both carry an empty transfer list, so the
buffers are copied by structured clone, not transferred. -/
theorem c7_no_transfer_in_worklet_js :
    (Main.mirrorPost demoCtrl : Post Nat Int Unit).transferList = [] ∧
    (WorkletJs.onmessage demoWasm 48000 demoReady demoReq).2.map
      Post.transferList = [[]] :=
  ⟨rfl, rfl⟩

/-- C7 amended: the control endpoint posts its mirror requests with no
transfer list and `worklet.js` posts its replies with no transfer list
(contents move by structured clone); only the `part_000` variant
transfers the two backing stores back to the requester on reply. -/
theorem c7_amended_transfer_only_part000 {P S G E : Type} (w : Wasm S G)
    (sampleRate : Nat) (stc : CtrlState S) (st : RenderState P G)
    (msg : Message P S E) (g : G) (b b2 : BufferPair S)
    (hh : st.handle = some g) (hw : msg.wasm = none)
    (hb : msg.buffer = some b) (hb2 : msg.buffers = some b2) :
    (Main.mirrorPost stc : Post P S E).transferList = [] ∧
    (WorkletJs.onmessage w sampleRate st msg).2.map Post.transferList
      = [[]] ∧
    (Part000.onmessage w sampleRate st msg).2.map Post.transferList
      = [[b2.left.id, b2.right.id]] := by
  refine ⟨rfl, ?_, ?_⟩
  · rw [WorkletJs.onmessage_mirror w sampleRate st msg g b hh hw hb]
    rfl
  · rw [Part000.onmessage_mirror_transfer w sampleRate st msg g b2 hh hw hb2]
    rfl

/-- C7 amended witness: a concrete Ready endpoint servicing a request
that carries buffers under both field conventions. -/
theorem c7_witness :
    (Main.mirrorPost demoCtrl : Post Nat Int Unit).transferList = [] ∧
    (WorkletJs.onmessage demoWasm 48000 demoReady
        ({ buffer := some demoBuf, buffers := some demoReplyBuf } :
          Message Nat Int Unit)).2.map Post.transferList = [[]] ∧
    (Part000.onmessage demoWasm 48000 demoReady
        ({ buffer := some demoBuf, buffers := some demoReplyBuf } :
          Message Nat Int Unit)).2.map Post.transferList = [[2, 3]] :=
  c7_amended_transfer_only_part000 demoWasm 48000 demoCtrl demoReady
    _ 5 demoBuf demoReplyBuf rfl rfl rfl rfl

/-! ### C1: number of mirror requests in flight -/

/-- The control state built by `part_001`'s top level: two zeroed
256-sample arrays. -/
def c1Ctrl : CtrlState Int :=
  { bufLeft := { id := 0, data := List.replicate 256 0 },
    bufRight := { id := 1, data := List.replicate 256 0 } }

/-- The system after the worklet has consumed the bootstrap message: the
startup mirror request is still in flight. -/
def c1Mid : Sys Nat Int Nat Unit :=
  { ctrl := c1Ctrl,
    rend := { module := some 7, processFnSet := true, handle := some 48000 },
    toRender := [Main.mirrorMsg c1Ctrl], toCtrl := [] }

/-- The system after one further animation frame: two mirror requests
queued towards the worklet at once. -/
def c1End : Sys Nat Int Nat Unit :=
  { c1Mid with toRender := [Main.mirrorMsg c1Ctrl, Main.mirrorMsg c1Ctrl] }

/-- C1 counterexample: from the startup state (bootstrap and first mirror
request posted, one request in flight), a reachable execution — deliver
the bootstrap, then let one animation frame fire — reaches a state with
two mirror requests in flight: `drawFrame` posts a new request although
the reply to the previous one has not been received. -/
theorem c1_multiple_requests_in_flight :
    Relation.ReflTransGen (Step demoWasm 48000) (sysInit 7 0) c1End ∧
    mirrorInFlight (sysInit 7 0 : Sys Nat Int Nat Unit) = 1 ∧
    mirrorInFlight c1End = 2 := by
  refine ⟨?_, rfl, rfl⟩
  have h1 : Step demoWasm 48000 (sysInit 7 0 : Sys Nat Int Nat Unit) c1Mid :=
    Step.deliverRender (sysInit 7 0) { wasm := some 7 }
      [Main.mirrorMsg c1Ctrl] rfl
  have h2 : Step demoWasm 48000 c1Mid c1End := Step.animFrame c1Mid
  exact Relation.ReflTransGen.head h1 (Relation.ReflTransGen.single h2)

/-- C1 amended: the control endpoint polls unconditionally — in every
system state the animation-frame step fires and posts a fresh mirror
request, whether or not a reply to the previous request has been
received, so the number of requests in flight grows by one each time. -/
theorem c1_amended_unconditional_poll {P S G E : Type} (w : Wasm S G)
    (sampleRate : Nat) (s : Sys P S G E) :
    ∃ t, Step w sampleRate s t ∧
      t.toRender = s.toRender ++ [Main.mirrorMsg s.ctrl] ∧
      mirrorInFlight t = mirrorInFlight s + 1 := by
  refine ⟨_, Step.animFrame s, rfl, ?_⟩
  show ((s.toRender ++
      ((Main.drawFrame s.ctrl).2.map Post.data)).filter Message.isMirror).length
    + (s.toCtrl.filter Message.isMirror).length = mirrorInFlight s + 1
  simp [mirrorInFlight, Main.drawFrame, Main.mirrorPost, Main.mirrorMsg,
    Message.isMirror, List.filter_append]
  omega
